import Mathlib

/-!
Verification of the White Goods CMS backend (src/main.py, src/schemas.py).

The development shallowly embeds the document CRUD and identity-mapping
layer of the backend: the identifier codec, the product resource mapper,
the CRUD handlers, the settings singleton, the admin gate and the contact
intake, and proves the testable properties stated in the specification.
-/

deriving instance DecidableEq for Except

namespace WhiteGoods

/-- Error taxonomy of the spec (section 7): HTTP-level failure conditions
raised by the handlers in src/main.py. -/
inductive ApiError
  | invalidIdentifier
  | notFound
  | unauthorized
  | serverMisconfigured
  | shapeValidationError
  | internalError
deriving DecidableEq, Repr

/-! ## Identifier codec

Modelled from the spec: the codec itself lives in the external `bson`
library (`ObjectId.is_valid`, `ObjectId(text)`, `str(ObjectId)`), which is
not under src/; src/main.py only calls it. Per spec section 4.1 and the
glossary, the internal identifier is the store-native 12-byte identifier,
represented externally as a fixed-length (24-character) hexadecimal
string; `decode` rejects texts of the wrong length or with non-hex
characters with an `InvalidIdentifier` condition. -/

/-- The sixteen hexadecimal digit characters, least digit first. -/
def hexDigitChars : List Char := ("0123456789abcdef").data

/-- Numeric value of a hexadecimal digit character (16 when not a hex digit). -/
def hexVal (c : Char) : Nat := hexDigitChars.indexOf c

/-- Hexadecimal digit character of a value below 16. -/
def hexChar (d : Nat) : Char := hexDigitChars.getD d '0'

/-- Whether a character is a hexadecimal digit. -/
def isHexChar (c : Char) : Bool := hexDigitChars.contains c

/-- Little-endian base-16 digits of `n`, padded or truncated to `k` digits. -/
def toHexDigits : Nat → Nat → List Nat
  | 0, _ => []
  | k + 1, n => n % 16 :: toHexDigits k (n / 16)

/-- Value of a little-endian list of base-16 digits. -/
def ofHexDigits : List Nat → Nat
  | [] => 0
  | d :: ds => d + 16 * ofHexDigits ds

/-- The internal identifier: a 12-byte (24 hex digit) value. -/
abbrev OId := Fin (16 ^ 24)

theorem length_toHexDigits (k : Nat) : ∀ n, (toHexDigits k n).length = k := by
  induction k with
  | zero => intro n; rfl
  | succ k ih => intro n; simp [toHexDigits, ih]

theorem toHexDigits_lt (k : Nat) : ∀ n, ∀ d ∈ toHexDigits k n, d < 16 := by
  induction k with
  | zero => intro n d hd; simp [toHexDigits] at hd
  | succ k ih =>
    intro n d hd
    simp only [toHexDigits, List.mem_cons] at hd
    rcases hd with rfl | hd
    · omega
    · exact ih _ d hd

theorem ofHexDigits_lt (ds : List Nat) (h : ∀ d ∈ ds, d < 16) :
    ofHexDigits ds < 16 ^ ds.length := by
  induction ds with
  | nil => simp [ofHexDigits]
  | cons d ds ih =>
    have hd : d < 16 := h d (List.mem_cons_self d ds)
    have hds : ofHexDigits ds < 16 ^ ds.length :=
      ih (fun x hx => h x (List.mem_cons_of_mem d hx))
    simp only [ofHexDigits, List.length_cons, pow_succ]
    set a := 16 ^ ds.length
    omega

theorem ofHexDigits_toHexDigits (k : Nat) : ∀ n, ofHexDigits (toHexDigits k n) = n % 16 ^ k := by
  induction k with
  | zero => intro n; simp [toHexDigits, ofHexDigits, Nat.mod_one]
  | succ k ih =>
    intro n
    simp only [toHexDigits, ofHexDigits, ih]
    rw [pow_succ']
    have hsplit := Nat.div_add_mod (n % (16 * 16 ^ k)) 16
    rw [Nat.mod_mul_right_div_self] at hsplit
    have hmm : n % (16 * 16 ^ k) % 16 = n % 16 :=
      Nat.mod_mod_of_dvd n ⟨16 ^ k, rfl⟩
    omega

theorem toHexDigits_ofHexDigits :
    ∀ ds : List Nat, (∀ d ∈ ds, d < 16) → toHexDigits ds.length (ofHexDigits ds) = ds := by
  intro ds
  induction ds with
  | nil => intro _; rfl
  | cons d ds ih =>
    intro h
    have hd : d < 16 := h d (List.mem_cons_self d ds)
    simp only [List.length_cons, toHexDigits, ofHexDigits]
    have hm : (d + 16 * ofHexDigits ds) % 16 = d := by omega
    have hq : (d + 16 * ofHexDigits ds) / 16 = ofHexDigits ds := by omega
    rw [hm, hq, ih (fun x hx => h x (List.mem_cons_of_mem d hx))]

theorem hexVal_lt_of_isHexChar (c : Char) (h : isHexChar c = true) : hexVal c < 16 := by
  have hmem : c ∈ hexDigitChars := by
    simpa [isHexChar] using h
  have := List.indexOf_lt_length.2 hmem
  simpa [hexVal, hexDigitChars] using this

theorem hexVal_hexChar (d : Nat) (h : d < 16) : hexVal (hexChar d) = d := by
  interval_cases d <;> rfl

theorem isHexChar_hexChar (d : Nat) (h : d < 16) : isHexChar (hexChar d) = true := by
  interval_cases d <;> rfl

theorem hexChar_hexVal (c : Char) (h : isHexChar c = true) : hexChar (hexVal c) = c := by
  have hmem : c ∈ hexDigitChars := by
    simpa [isHexChar] using h
  have hlt : hexVal c < hexDigitChars.length := List.indexOf_lt_length.2 hmem
  rw [hexChar, List.getD_eq_getElem _ _ hlt]
  exact List.getElem_indexOf hlt

/-- Modelled from the spec: `encode` is `str(ObjectId)`, the deterministic
lossless 24-hex-character textual form of the internal identifier
(most significant digit first). -/
def encode (x : OId) : String :=
  String.mk ((toHexDigits 24 x.val).reverse.map hexChar)

/-- Whether a text is a well-formed encoded identifier: exactly 24
characters, all hexadecimal digits. -/
def wellFormedId (s : String) : Bool :=
  s.data.length = 24 && s.data.all isHexChar

/-- Raw numeric value read off a candidate encoded identifier text. -/
def decodeVal (s : String) : Nat := ofHexDigits ((s.data.map hexVal).reverse)

theorem wellFormedId_parts (s : String) (h : wellFormedId s = true) :
    s.data.length = 24 ∧ s.data.all isHexChar = true := by
  rw [wellFormedId, Bool.and_eq_true, decide_eq_true_eq] at h
  exact h

theorem decodeVal_lt (s : String) (h : wellFormedId s = true) : decodeVal s < 16 ^ 24 := by
  obtain ⟨h24, hall⟩ := wellFormedId_parts s h
  have h16 : ∀ d ∈ (s.data.map hexVal).reverse, d < 16 := by
    intro d hd
    rw [List.mem_reverse] at hd
    obtain ⟨c, hc, rfl⟩ := List.mem_map.1 hd
    refine hexVal_lt_of_isHexChar c ?_
    rw [List.all_eq_true] at hall
    exact hall c hc
  have hlen : ((s.data.map hexVal).reverse).length = 24 := by simp [h24]
  have := ofHexDigits_lt _ h16
  rwa [hlen] at this

/-- Modelled from the spec: `decode` is `ObjectId.is_valid` followed by
`ObjectId(text)`; it fails with `InvalidIdentifier` on texts of the
wrong length or with non-hex characters. -/
def decode (s : String) : Except ApiError OId :=
  if h : wellFormedId s = true then
    .ok ⟨decodeVal s, decodeVal_lt s h⟩
  else
    .error .invalidIdentifier

theorem data_encode (x : OId) : (encode x).data = (toHexDigits 24 x.val).reverse.map hexChar :=
  rfl

theorem wellFormedId_encode (x : OId) : wellFormedId (encode x) = true := by
  rw [wellFormedId, Bool.and_eq_true, decide_eq_true_eq, data_encode]
  constructor
  · simp [length_toHexDigits]
  · rw [List.all_eq_true]
    intro c hc
    obtain ⟨d, hd, rfl⟩ := List.mem_map.1 hc
    rw [List.mem_reverse] at hd
    exact isHexChar_hexChar d (toHexDigits_lt 24 x.val d hd)

theorem map_eq_self_of_mem {α : Type} (f : α → α) :
    ∀ l : List α, (∀ a ∈ l, f a = a) → l.map f = l := by
  intro l
  induction l with
  | nil => intro _; rfl
  | cons a l ih =>
    intro h
    simp only [List.map_cons]
    rw [h a (List.mem_cons_self a l), ih (fun b hb => h b (List.mem_cons_of_mem a hb))]

theorem decodeVal_encode (x : OId) : decodeVal (encode x) = x.val := by
  show ofHexDigits ((((toHexDigits 24 x.val).reverse.map hexChar).map hexVal).reverse) = x.val
  rw [List.map_map, List.map_reverse, List.reverse_reverse]
  have hmap : (toHexDigits 24 x.val).map (hexVal ∘ hexChar) = toHexDigits 24 x.val := by
    apply map_eq_self_of_mem
    intro d hd
    exact hexVal_hexChar d (toHexDigits_lt 24 x.val d hd)
  rw [hmap, ofHexDigits_toHexDigits]
  exact Nat.mod_eq_of_lt x.isLt

theorem decode_encode (x : OId) : decode (encode x) = .ok x := by
  rw [decode, dif_pos (wellFormedId_encode x), Except.ok.injEq]
  exact Fin.ext (decodeVal_encode x)

theorem decode_not_wellFormed (s : String) (h : wellFormedId s = false) :
    decode s = .error ApiError.invalidIdentifier := by
  rw [decode, dif_neg]
  rw [h]
  simp

theorem encode_decode (s : String) (x : OId) (h : decode s = .ok x) : encode x = s := by
  by_cases hwf : wellFormedId s = true
  · rw [decode, dif_pos hwf] at h
    have hx : (⟨decodeVal s, decodeVal_lt s hwf⟩ : OId) = x := by
      simpa using h
    obtain ⟨h24, hall⟩ := wellFormedId_parts s hwf
    have hall16 : ∀ d ∈ (s.data.map hexVal).reverse, d < 16 := by
      intro d hd
      rw [List.mem_reverse] at hd
      obtain ⟨c, hcmem, rfl⟩ := List.mem_map.1 hd
      refine hexVal_lt_of_isHexChar c ?_
      rw [List.all_eq_true] at hall
      exact hall c hcmem
    have hlenrev : ((s.data.map hexVal).reverse).length = 24 := by simp [h24]
    rw [← hx, encode]
    show String.mk ((toHexDigits 24 (decodeVal s)).reverse.map hexChar) = s
    have hdig : toHexDigits 24 (decodeVal s) = (s.data.map hexVal).reverse := by
      have := toHexDigits_ofHexDigits ((s.data.map hexVal).reverse) hall16
      rw [hlenrev] at this
      exact this
    rw [hdig, List.reverse_reverse, List.map_map]
    have hmap : s.data.map (hexChar ∘ hexVal) = s.data := by
      apply map_eq_self_of_mem
      intro c hcmem
      apply hexChar_hexVal
      rw [List.all_eq_true] at hall
      exact hall c hcmem
    rw [hmap]
  · rw [decode, dif_neg hwf] at h
    exact absurd h (by simp)

theorem encode_injective (x y : OId) (h : encode x = encode y) : x = y := by
  have hx := decode_encode x
  have hy := decode_encode y
  rw [h, hy] at hx
  cases hx
  rfl

/-! ## Product resource shapes (src/main.py lines 51-63, src/schemas.py)

`ProductFields` is the common field record of the `ProductCreate` input
shape and of a stored product document: name, brand, description, price,
image_url, category, in_stock, features. Prices are modelled as rational
numbers (the source uses `float` for a "non-negative real number"); no
claim involves float rounding. Pydantic enforces the declared types
structurally and the single value constraint `price: float = Field(ge=0)`. -/

structure ProductFields where
  name : String
  brand : String
  description : Option String := none
  price : Rat
  image_url : Option String := none
  category : Option String := none
  in_stock : Bool := true
  features : Option (List String) := some []
deriving DecidableEq, Repr

/-- The single value constraint pydantic checks on `ProductCreate` beyond
the structural field types: `price: float = Field(ge=0)` (src/main.py
line 55). Field types themselves are enforced structurally by the
embedding. -/
def productFieldsValid (p : ProductFields) : Bool := 0 ≤ p.price

/-- Pydantic validation of a `ProductCreate` request body: accepts the
shape when its declared constraints hold, otherwise raises a shape
validation error (FastAPI 422). -/
def validateProductCreate (p : ProductFields) : Except ApiError ProductFields :=
  if productFieldsValid p then .ok p else .error .shapeValidationError

/-- The wire-level `Product` output shape (src/main.py lines 62-63):
the `ProductCreate` fields plus the encoded identifier. -/
structure Product where
  id : String
  name : String
  brand : String
  description : Option String
  price : Rat
  image_url : Option String
  category : Option String
  in_stock : Bool
  features : Option (List String)
deriving DecidableEq, Repr

/-- Constructing `Product(**doc)` from a stored document plus the encoded
identifier: pydantic re-validates the inherited `price: Field(ge=0)`
constraint and fails with a shape validation error on violation. -/
def toWireProduct (idStr : String) (d : ProductFields) : Except ApiError Product :=
  if 0 ≤ d.price then
    .ok { id := idStr, name := d.name, brand := d.brand, description := d.description,
          price := d.price, image_url := d.image_url, category := d.category,
          in_stock := d.in_stock, features := d.features }
  else
    .error .shapeValidationError

/-- The product collection: documents keyed by their store identifier. -/
abbrev ProductStore := List (OId × ProductFields)

/-- Modelled from the spec: `create_document` (database.py, not under
src/) inserts a document into the named collection and returns its newly
assigned identifier in encoded text form (spec section 2, Document Store
Adapter; section 4.3 Create). The fresh identifier chosen by the store is
passed explicitly. -/
def create_document (store : ProductStore) (doc : ProductFields) (newId : OId) :
    String × ProductStore :=
  (encode newId, store ++ [(newId, doc)])

/-- Modelled from the spec: `update_one({_id: oid}, {$set: fields})` on
the document store updates the first document matching the filter,
setting every field of the payload, and reports how many documents
matched (spec section 2: update-one, partial, by filter). -/
def updateFirst : ProductStore → OId → ProductFields → ProductStore
  | [], _, _ => []
  | e :: rest, oid, f =>
    if e.1 = oid then (e.1, f) :: rest else e :: updateFirst rest oid f

/-- Whether some document of the collection matches an identifier filter. -/
def matchesId (store : ProductStore) (oid : OId) : Bool :=
  store.any (fun e => e.1 = oid)

/-- Modelled from the spec: `find_one({_id: oid})` returns the first
document matching the filter, if any. -/
def findOne (store : ProductStore) (oid : OId) : Option (OId × ProductFields) :=
  store.find? (fun e => e.1 = oid)

/-! ## Product CRUD handlers (src/main.py lines 141-180) -/

/-- `GET /api/products` (src/main.py lines 141-148): reads all documents
of the product collection, renames `_id` to the encoded `id`, and maps
each through the `Product` output shape; the first shape violation
aborts the request. -/
def list_products : ProductStore → Except ApiError (List Product)
  | [] => .ok []
  | (oid, d) :: rest =>
    match toWireProduct (encode oid) d with
    | .error e => .error e
    | .ok p =>
      match list_products rest with
      | .error e => .error e
      | .ok ps => .ok (p :: ps)

/-- `POST /api/products` (src/main.py lines 151-156), after the admin
gate: dumps the validated payload, inserts it, and returns the payload
fields with the inserted identifier attached. -/
def create_product (store : ProductStore) (payload : ProductFields) (newId : OId) :
    Except ApiError Product × ProductStore :=
  let doc := payload
  let res := create_document store doc newId
  (toWireProduct res.1 doc, res.2)

/-- `PUT /api/products/{product_id}` (src/main.py lines 159-169), after
the admin gate: rejects malformed identifiers before any store call,
applies `update_one` with a `$set` of all payload fields, reports 404
when nothing matched, then re-reads and returns the updated document. -/
def update_product (store : ProductStore) (product_id : String) (payload : ProductFields) :
    Except ApiError Product × ProductStore :=
  match decode product_id with
  | .error _ => (.error .invalidIdentifier, store)
  | .ok oid =>
    let store' := updateFirst store oid payload
    if matchesId store oid = false then
      (.error .notFound, store')
    else
      match findOne store' oid with
      | some e => (toWireProduct (encode e.1) e.2, store')
      | none => (.error .internalError, store')

/-! ## Admin gate (src/main.py lines 38-45) -/

/-- Python truthiness of an optional environment string: `None` and the
empty string are falsy. -/
def pyTruthy (s : Option String) : Bool :=
  match s with
  | none => false
  | some t => !(t = "")

/-- `admin_token_required` (src/main.py lines 38-45): reads the
`ADMIN_TOKEN` environment value; if it is unset or empty (`not
admin_token`), fails with the 500 misconfiguration error; otherwise
fails with 401 unless the supplied header equals it exactly. -/
def admin_token_required (env_admin_token : Option String) (x_admin_token : Option String) :
    Except ApiError Unit :=
  if pyTruthy env_admin_token then
    if x_admin_token = env_admin_token then .ok () else .error .unauthorized
  else
    .error .serverMisconfigured

/-! ## Settings singleton (src/main.py lines 72-77 and 186-195) -/

/-- The `SiteSettings` shape with its declared defaults (src/main.py
lines 72-77). -/
structure SiteSettings where
  hero_title : String := "Premium White Goods"
  hero_subtitle : String := "Reliable appliances for every home."
  contact_email : Option String := none
  phone : Option String := none
  address : Option String := none
deriving DecidableEq, Repr

/-- The default settings record `SiteSettings()`. -/
def defaultSettings : SiteSettings := {}

/-- The sitesettings collection. Modelled from the spec: `find_one({})`
returns the first stored document, `create_document` appends (database.py
is not under src/; spec section 2 and section 4.4). -/
abbrev SettingsStore := List SiteSettings

/-- `GET /api/settings` (src/main.py lines 186-195): reads the sole
settings document; when none exists, seeds the store with the defaults
and returns them. -/
def get_settings (store : SettingsStore) : SiteSettings × SettingsStore :=
  match store with
  | [] => (defaultSettings, store ++ [defaultSettings])
  | doc :: _ => (doc, store)

/-! ## Contact intake (src/main.py lines 66-69 and 211-247) -/

/-- The `ContactMessageIn` shape (src/main.py lines 66-69). Email syntax
validation is structural and not load-bearing for any claim. -/
structure ContactMessageIn where
  name : String
  email : String
  message : String
deriving DecidableEq, Repr

/-- The SMTP-related environment values read by the contact handler. -/
structure SmtpEnv where
  smtp_host : Option String := none
  smtp_user : Option String := none
  smtp_pass : Option String := none
  contact_to_email : Option String := none
deriving Repr

/-- The JSON body returned by `POST /api/contact`. -/
structure ContactResponse where
  stored : Bool
  email_sent : Bool
  error : Option String
deriving DecidableEq, Repr

/-- Python `a or b` on optional environment strings. -/
def pyOr (a b : Option String) : Option String := if pyTruthy a then a else b

/-- `POST /api/contact` (src/main.py lines 211-247): stores the message
first, then attempts the SMTP notification only when both a relay host
and a destination address are configured. The outcome of the external
SMTP session (success, or the text of the raised exception) is passed as
an explicit oracle; the handler catches every failure and reports it in
the response body. -/
def send_contact_message (env : SmtpEnv) (store : List ContactMessageIn)
    (payload : ContactMessageIn) (smtpOutcome : Except String Unit) :
    ContactResponse × List ContactMessageIn :=
  let store' := store ++ [payload]
  let to_email := pyOr env.contact_to_email env.smtp_user
  if pyTruthy env.smtp_host && pyTruthy to_email then
    match smtpOutcome with
    | .ok _ => ({ stored := true, email_sent := true, error := none }, store')
    | .error e => ({ stored := true, email_sent := false, error := some e }, store')
  else
    ({ stored := true, email_sent := false,
       error := some "SMTP not configured on server" }, store')

/-! ## Store lemmas -/

theorem updateFirst_of_not_matches (store : ProductStore) (oid : OId) (f : ProductFields)
    (h : matchesId store oid = false) : updateFirst store oid f = store := by
  induction store with
  | nil => rfl
  | cons e rest ih =>
    rw [matchesId, List.any_cons, Bool.or_eq_false_iff] at h
    have he : ¬ (e.1 = oid) := by simpa using h.1
    rw [updateFirst, if_neg he, ih h.2]

theorem matches_decomp (store : ProductStore) (oid : OId) (h : matchesId store oid = true) :
    ∃ pre d postEntries, store = pre ++ (oid, d) :: postEntries ∧ matchesId pre oid = false := by
  induction store with
  | nil => simp [matchesId] at h
  | cons e rest ih =>
    by_cases he : e.1 = oid
    · have he2 : e = (oid, e.2) := by rw [← he]
      exact ⟨[], e.2, rest, by rw [← he2]; rfl, rfl⟩
    · rw [matchesId, List.any_cons, Bool.or_eq_true] at h
      rcases h with h1 | h2
      · exact absurd (by simpa using h1) he
      · obtain ⟨pre, d, postEntries, hsplit, hpre⟩ := ih h2
        refine ⟨e :: pre, d, postEntries, by rw [hsplit]; rfl, ?_⟩
        rw [matchesId, List.any_cons, Bool.or_eq_false_iff]
        exact ⟨by simpa using he, hpre⟩

theorem updateFirst_split (pre postEntries : ProductStore) (oid : OId) (d f : ProductFields)
    (h : matchesId pre oid = false) :
    updateFirst (pre ++ (oid, d) :: postEntries) oid f = pre ++ (oid, f) :: postEntries := by
  induction pre with
  | nil => simp [updateFirst]
  | cons e rest ih =>
    rw [matchesId, List.any_cons, Bool.or_eq_false_iff] at h
    have he : ¬ (e.1 = oid) := by simpa using h.1
    simp only [List.cons_append, updateFirst, if_neg he, List.append_eq]
    rw [ih h.2]

theorem findOne_split (pre postEntries : ProductStore) (oid : OId) (f : ProductFields)
    (h : matchesId pre oid = false) :
    findOne (pre ++ (oid, f) :: postEntries) oid = some (oid, f) := by
  induction pre with
  | nil => simp [findOne]
  | cons e rest ih =>
    rw [matchesId, List.any_cons, Bool.or_eq_false_iff] at h
    rw [findOne, List.cons_append, List.find?_cons_of_neg _ (by simp [h.1])]
    exact ih h.2

theorem toWireProduct_invalid (idStr : String) (d : ProductFields)
    (h : productFieldsValid d = false) :
    toWireProduct idStr d = .error ApiError.shapeValidationError := by
  have hneg : ¬ (0 ≤ d.price) := by simpa [productFieldsValid] using h
  rw [toWireProduct, if_neg hneg]

theorem toWireProduct_valid (idStr : String) (d : ProductFields)
    (h : productFieldsValid d = true) :
    toWireProduct idStr d =
      .ok { id := idStr, name := d.name, brand := d.brand, description := d.description,
            price := d.price, image_url := d.image_url, category := d.category,
            in_stock := d.in_stock, features := d.features } := by
  have hle : 0 ≤ d.price := by simpa [productFieldsValid] using h
  rw [toWireProduct, if_pos hle]

theorem list_products_mem_invalid (oid : OId) (d : ProductFields)
    (hd : productFieldsValid d = false) :
    ∀ store : ProductStore, (oid, d) ∈ store →
      list_products store = .error ApiError.shapeValidationError := by
  intro store
  induction store with
  | nil => intro hmem; cases hmem
  | cons e rest ih =>
    intro hmem
    obtain ⟨o, f⟩ := e
    rcases List.mem_cons.1 hmem with heq | hmem2
    · cases heq
      rw [list_products, toWireProduct_invalid _ _ hd]
    · rw [list_products]
      cases hw : toWireProduct (encode o) f with
      | error err =>
        have : err = ApiError.shapeValidationError := by
          rw [toWireProduct] at hw
          split at hw
          · cases hw
          · cases hw; rfl
        rw [this]
      | ok p =>
        rw [ih hmem2]

/-! ## Sample values used by the witnesses -/

def sampleOId1 : OId := ⟨1, by decide⟩

def sampleOId2 : OId := ⟨2, by decide⟩

def samplePayload : ProductFields := { name := "Fridge X", brand := "Acme", price := 500 }

def sampleOldDoc : ProductFields := { name := "Old Fridge", brand := "OldBrand", price := 7 }

def sampleBadPriceDoc : ProductFields := { name := "Broken", brand := "Acme", price := -3 }

def sampleStore : ProductStore := [(sampleOId2, sampleOldDoc), (sampleOId1, sampleOldDoc)]

def sampleContact : ContactMessageIn :=
  { name := "Ada", email := "ada@example.com", message := "hello" }

def sampleSmtpEnv : SmtpEnv :=
  { smtp_host := some ("smtp.example.com"), smtp_user := some ("relay-user") }

/-! ## Claims -/

/-- Claim C1: for every internal identifier x, decode (encode x) = x; every
malformed text (wrong length or non-hex characters) fails to decode with
InvalidIdentifier; and encode and decode are mutually inverse bijections
on well-formed inputs (decode inverts encode, encode inverts decode, and
encode is injective). -/
theorem claim_C1_identifier_codec :
    (∀ x : OId, decode (encode x) = .ok x) ∧
    (∀ s : String, wellFormedId s = false → decode s = .error ApiError.invalidIdentifier) ∧
    (∀ (s : String) (x : OId), decode s = .ok x → encode x = s) ∧
    (∀ x y : OId, encode x = encode y → x = y) :=
  ⟨decode_encode, decode_not_wellFormed, encode_decode, encode_injective⟩

/-- Witness for claim C1 at concrete inputs. -/
theorem claim_C1_identifier_codec_witness :
    decode (encode sampleOId1) = .ok sampleOId1 ∧
    wellFormedId ("not-a-hex-identifier") = false ∧
    decode ("not-a-hex-identifier") = .error ApiError.invalidIdentifier :=
  ⟨claim_C1_identifier_codec.1 sampleOId1, by decide,
   claim_C1_identifier_codec.2.1 ("not-a-hex-identifier") (by decide)⟩

/-- Claim C2: for every valid Product creation payload, the resource
returned by the Create handler reproduces every payload field unchanged,
with only the newly assigned encoded identifier added. -/
theorem claim_C2_create_preserves_payload (store : ProductStore) (payload : ProductFields)
    (newId : OId) (h : productFieldsValid payload = true) :
    (create_product store payload newId).1 =
      .ok { id := encode newId, name := payload.name, brand := payload.brand,
            description := payload.description, price := payload.price,
            image_url := payload.image_url, category := payload.category,
            in_stock := payload.in_stock, features := payload.features } := by
  simp only [create_product, create_document]
  exact toWireProduct_valid _ _ h

/-- Witness for claim C2 at a concrete payload and identifier. -/
theorem claim_C2_create_preserves_payload_witness :
    productFieldsValid samplePayload = true ∧
    (create_product [] samplePayload sampleOId1).1 =
      .ok { id := encode sampleOId1, name := samplePayload.name, brand := samplePayload.brand,
            description := samplePayload.description, price := samplePayload.price,
            image_url := samplePayload.image_url, category := samplePayload.category,
            in_stock := samplePayload.in_stock, features := samplePayload.features } :=
  ⟨by decide, claim_C2_create_preserves_payload [] samplePayload sampleOId1 (by decide)⟩

/-- Claim C3: every mutating endpoint call fails with ServerMisconfigured
when the admin secret is unconfigured (unset or empty), regardless of the
supplied token, and fails with Unauthorized when the secret is configured
and the supplied token (possibly missing) differs from it. -/
theorem claim_C3_admin_gate (env supplied : Option String) :
    (pyTruthy env = false →
      admin_token_required env supplied = .error ApiError.serverMisconfigured) ∧
    (pyTruthy env = true → supplied ≠ env →
      admin_token_required env supplied = .error ApiError.unauthorized) := by
  constructor
  · intro h
    simp [admin_token_required, h]
  · intro h hne
    simp [admin_token_required, h, hne]

/-- Witness for claim C3: an unconfigured secret with a token supplied,
and a configured secret with no token supplied. -/
theorem claim_C3_admin_gate_witness :
    (pyTruthy none = false ∧
      admin_token_required none (some ("token")) = .error ApiError.serverMisconfigured) ∧
    (pyTruthy (some ("secret")) = true ∧
      admin_token_required (some ("secret")) none = .error ApiError.unauthorized) :=
  ⟨⟨by decide, (claim_C3_admin_gate none (some ("token"))).1 (by decide)⟩,
   ⟨by decide, (claim_C3_admin_gate (some ("secret")) none).2 (by decide) (by decide)⟩⟩

/-- Claim C4: Update with a malformed path identifier fails with
InvalidIdentifier and leaves the store untouched; Update with a
well-formed identifier matching no document fails with NotFound and
modifies no document. -/
theorem claim_C4_update_error_paths (store : ProductStore) (product_id : String)
    (payload : ProductFields) :
    (wellFormedId product_id = false →
      update_product store product_id payload = (.error ApiError.invalidIdentifier, store)) ∧
    (∀ oid : OId, decode product_id = .ok oid → matchesId store oid = false →
      update_product store product_id payload = (.error ApiError.notFound, store)) := by
  constructor
  · intro h
    simp only [update_product, decode_not_wellFormed product_id h]
  · intro oid hdec hmatch
    simp only [update_product, hdec, hmatch]
    rw [updateFirst_of_not_matches store oid payload hmatch]
    simp

/-- Witness for claim C4: a malformed identifier and a well-formed but
absent identifier against a one-document store. -/
theorem claim_C4_update_error_paths_witness :
    (wellFormedId ("zz-bad-id") = false ∧
      update_product [(sampleOId2, sampleOldDoc)] ("zz-bad-id") samplePayload
        = (.error ApiError.invalidIdentifier, [(sampleOId2, sampleOldDoc)])) ∧
    (decode ("000000000000000000000001") = .ok sampleOId1 ∧
      matchesId [(sampleOId2, sampleOldDoc)] sampleOId1 = false ∧
      update_product [(sampleOId2, sampleOldDoc)] ("000000000000000000000001") samplePayload
        = (.error ApiError.notFound, [(sampleOId2, sampleOldDoc)])) :=
  ⟨⟨by decide,
    (claim_C4_update_error_paths [(sampleOId2, sampleOldDoc)] ("zz-bad-id") samplePayload).1
      (by decide)⟩,
   ⟨by decide, by decide,
    (claim_C4_update_error_paths [(sampleOId2, sampleOldDoc)] ("000000000000000000000001")
        samplePayload).2 sampleOId1 (by decide) (by decide)⟩⟩

/-- Counterexample to claim C5 as stated: a creation payload with an
empty name (and otherwise valid fields) is accepted by the validation
layer, not rejected with a ShapeValidationError. -/
theorem claim_C5_counterexample :
    validateProductCreate { name := "", brand := "Acme", price := 1 }
      = .ok { name := "", brand := "Acme", price := 1 } := by
  decide

/-- Claim C5 (amended): the validation enforced before mapping a Product
creation/update payload accepts exactly the inputs whose price is a
non-negative number; name and brand are required text fields but may be
empty, and features is structurally a sequence of text. -/
theorem claim_C5_validation_characterization (p : ProductFields) :
    (0 ≤ p.price → validateProductCreate p = .ok p) ∧
    (¬ 0 ≤ p.price → validateProductCreate p = .error ApiError.shapeValidationError) := by
  constructor
  · intro h
    simp [validateProductCreate, productFieldsValid, h]
  · intro h
    simp [validateProductCreate, productFieldsValid, h]

/-- Witness for the amended claim C5: a non-negative price is accepted,
a negative price is rejected. -/
theorem claim_C5_validation_characterization_witness :
    validateProductCreate samplePayload = .ok samplePayload ∧
    validateProductCreate sampleBadPriceDoc = .error ApiError.shapeValidationError :=
  ⟨(claim_C5_validation_characterization samplePayload).1 (by decide),
   (claim_C5_validation_characterization sampleBadPriceDoc).2 (by decide)⟩

/-- Claim C6: reading the settings on an empty store returns the
documented defaults (hero title, hero subtitle, no optional fields) and
persists them; every subsequent read of the resulting store returns the
same values without further change. -/
theorem claim_C6_settings_defaults :
    get_settings [] = (defaultSettings, [defaultSettings]) ∧
    get_settings ((get_settings []).2) = (defaultSettings, [defaultSettings]) ∧
    defaultSettings.hero_title = "Premium White Goods" ∧
    defaultSettings.hero_subtitle = "Reliable appliances for every home." ∧
    defaultSettings.contact_email = none ∧
    defaultSettings.phone = none ∧
    defaultSettings.address = none :=
  ⟨rfl, rfl, rfl, rfl, rfl, rfl, rfl⟩

/-- Claim C7: a stored product document violating the output shape
constraints (negative price) fails to map to the wire shape with a
ShapeValidationError, both as a single document and inside the List
handler, rather than being silently returned or coerced. -/
theorem claim_C7_corrupt_document_rejected (idStr : String) (oid : OId) (d : ProductFields)
    (h : productFieldsValid d = false) :
    toWireProduct idStr d = .error ApiError.shapeValidationError ∧
    (∀ store : ProductStore, (oid, d) ∈ store →
      list_products store = .error ApiError.shapeValidationError) :=
  ⟨toWireProduct_invalid idStr d h, list_products_mem_invalid oid d h⟩

/-- Witness for claim C7: a document with price -3. -/
theorem claim_C7_corrupt_document_rejected_witness :
    productFieldsValid sampleBadPriceDoc = false ∧
    toWireProduct ("corrupt-doc-id") sampleBadPriceDoc = .error ApiError.shapeValidationError ∧
    list_products [(sampleOId1, sampleBadPriceDoc)] = .error ApiError.shapeValidationError :=
  ⟨by decide,
   (claim_C7_corrupt_document_rejected ("corrupt-doc-id") sampleOId1 sampleBadPriceDoc
      (by decide)).1,
   (claim_C7_corrupt_document_rejected ("corrupt-doc-id") sampleOId1 sampleBadPriceDoc
      (by decide)).2 [(sampleOId1, sampleBadPriceDoc)] (by decide)⟩

/-- Claim C8: a successful Update on a matched document overwrites the
entire stored record with the mapped payload fields, keeping only the
identifier: the store decomposes around the first match, which afterwards
holds exactly the payload fields under the unchanged identifier, all
other documents being untouched, and the handler returns the re-read
resource. -/
theorem claim_C8_update_overwrites (store : ProductStore) (product_id : String)
    (payload : ProductFields) (oid : OId)
    (hdec : decode product_id = .ok oid)
    (hmatch : matchesId store oid = true)
    (hval : productFieldsValid payload = true) :
    ∃ pre d₀ postEntries,
      store = pre ++ (oid, d₀) :: postEntries ∧
      matchesId pre oid = false ∧
      update_product store product_id payload =
        (.ok { id := encode oid, name := payload.name, brand := payload.brand,
               description := payload.description, price := payload.price,
               image_url := payload.image_url, category := payload.category,
               in_stock := payload.in_stock, features := payload.features },
         pre ++ (oid, payload) :: postEntries) := by
  obtain ⟨pre, d₀, postEntries, hsplit, hpre⟩ := matches_decomp store oid hmatch
  refine ⟨pre, d₀, postEntries, hsplit, hpre, ?_⟩
  have hcond : ¬ (matchesId store oid = false) := by rw [hmatch]; simp
  simp only [update_product, hdec]
  rw [if_neg hcond]
  rw [hsplit, updateFirst_split pre postEntries oid d₀ payload hpre,
    findOne_split pre postEntries oid payload hpre]
  show (toWireProduct (encode oid) payload, pre ++ (oid, payload) :: postEntries) = _
  rw [toWireProduct_valid _ _ hval]

/-- Witness for claim C8: updating the second document of a two-document
store. -/
theorem claim_C8_update_overwrites_witness :
    decode ("000000000000000000000001") = .ok sampleOId1 ∧
    matchesId sampleStore sampleOId1 = true ∧
    productFieldsValid samplePayload = true ∧
    ∃ pre d₀ postEntries,
      sampleStore = pre ++ (sampleOId1, d₀) :: postEntries ∧
      matchesId pre sampleOId1 = false ∧
      update_product sampleStore ("000000000000000000000001") samplePayload =
        (.ok { id := encode sampleOId1, name := samplePayload.name,
               brand := samplePayload.brand, description := samplePayload.description,
               price := samplePayload.price, image_url := samplePayload.image_url,
               category := samplePayload.category, in_stock := samplePayload.in_stock,
               features := samplePayload.features },
         pre ++ (sampleOId1, samplePayload) :: postEntries) :=
  ⟨by decide, by decide, by decide,
   claim_C8_update_overwrites sampleStore ("000000000000000000000001") samplePayload sampleOId1
     (by decide) (by decide) (by decide)⟩

/-- Claim C9: the contact handler always persists the message first and
returns with stored true; with no relay host configured the response is
exactly stored true, email_sent false, error "SMTP not configured on
server"; and with the relay configured, a failure of the SMTP session is
caught and reported in the response body while the request still
succeeds. -/
theorem claim_C9_contact_flow (env : SmtpEnv) (store : List ContactMessageIn)
    (payload : ContactMessageIn) (smtpOutcome : Except String Unit) :
    (send_contact_message env store payload smtpOutcome).2 = store ++ [payload] ∧
    (send_contact_message env store payload smtpOutcome).1.stored = true ∧
    (pyTruthy env.smtp_host = false →
      (send_contact_message env store payload smtpOutcome).1 =
        { stored := true, email_sent := false,
          error := some ("SMTP not configured on server") }) ∧
    (∀ e : String, pyTruthy env.smtp_host = true →
      pyTruthy (pyOr env.contact_to_email env.smtp_user) = true →
      smtpOutcome = .error e →
      (send_contact_message env store payload smtpOutcome).1 =
        { stored := true, email_sent := false, error := some e }) := by
  refine ⟨?_, ?_, ?_, ?_⟩
  · cases hcond : (pyTruthy env.smtp_host && pyTruthy (pyOr env.contact_to_email env.smtp_user))
      <;> cases smtpOutcome <;> simp [send_contact_message, hcond]
  · cases hcond : (pyTruthy env.smtp_host && pyTruthy (pyOr env.contact_to_email env.smtp_user))
      <;> cases smtpOutcome <;> simp [send_contact_message, hcond]
  · intro h
    simp [send_contact_message, h]
  · intro e h1 h2 hout
    simp [send_contact_message, h1, h2, hout]

/-- Witness for claim C9: an unconfigured relay, and a configured relay
whose SMTP session fails. -/
theorem claim_C9_contact_flow_witness :
    (send_contact_message {} [] sampleContact (.ok ())).2 = [sampleContact] ∧
    (send_contact_message {} [] sampleContact (.ok ())).1 =
      { stored := true, email_sent := false,
        error := some ("SMTP not configured on server") } ∧
    (send_contact_message sampleSmtpEnv [] sampleContact
        (.error ("connection refused"))).1 =
      { stored := true, email_sent := false, error := some ("connection refused") } :=
  ⟨(claim_C9_contact_flow {} [] sampleContact (.ok ())).1,
   (claim_C9_contact_flow {} [] sampleContact (.ok ())).2.2.1 (by decide),
   (claim_C9_contact_flow sampleSmtpEnv [] sampleContact
      (.error ("connection refused"))).2.2.2 ("connection refused") (by decide) (by decide) rfl⟩

/-- Claim C10: when the admin secret is configured as the empty string,
every mutating call fails with ServerMisconfigured (the empty string is
treated as unconfigured), so no supplied token, the empty string
included, authorizes a mutating operation. -/
theorem claim_C10_empty_secret_misconfigured (supplied : Option String) :
    admin_token_required (some ("")) supplied = .error ApiError.serverMisconfigured := by
  simp [admin_token_required, pyTruthy]

end WhiteGoods
